import Mathlib

/-!
Verification development for the gesture-controlled two-channel audio engine
(Human-Design-Synthesizer).  The audio engine (`LoopChannel` / `SynthEngine`)
and the gesture mapper (`calculateHandMetrics` and the x/y computation in
`predictWebcam`) are shallowly embedded below.

Modelling conventions:
* JS numbers are embedded as `ℚ` in the engine (all its arithmetic is
  rational) and as `ℝ` in the gesture mapper (which uses `sqrt`/`atan2`).
* Every Web Audio `AudioParam.setTargetAtTime(v, t, tc)` call is modelled as
  recording the pair (target value, time constant) in an `SParam`; direct
  `param.value = v` assignments at construction are recorded with time
  constant 0 (an instantaneous set).
* The self-rescheduling `setTimeout` chain is modelled by a `pendingWake`
  flag plus an explicit wake function (`schedulerWake` / `schedulerTick`)
  taking the current audio-clock time `now` as an argument; `Math.random()`
  draws are passed in as an explicit per-step stream `rand : ℕ → ℚ`.
-/

/-- Effect types assignable to a control axis (types.ts `EffectType`). -/
inductive EffectType
  | NONE
  | VOLUME
  | LPF
  | HPF
  | REVERB
  | DELAY
  | FLANGER
  deriving DecidableEq

/-- Loop categories (types.ts `LoopCategory`). -/
inductive LoopCategory
  | DRUMS
  | SYNTH
  | AMBIENT
  | PERC
  deriving DecidableEq

/-- A catalog entry (types.ts `LoopDefinition`). -/
structure LoopDefinition where
  id : String
  name : String
  category : LoopCategory
  bpm : ℚ
  deriving DecidableEq

/-- The fixed loop catalog (types.ts `AVAILABLE_LOOPS`). -/
def AVAILABLE_LOOPS : List LoopDefinition :=
  [ ⟨"drum_house", "House Beat", LoopCategory.DRUMS, 128⟩,
    ⟨"drum_break", "Breakbeat", LoopCategory.DRUMS, 128⟩,
    ⟨"synth_neon", "Neon Arp", LoopCategory.SYNTH, 128⟩,
    ⟨"synth_bass", "Wobble Bass", LoopCategory.SYNTH, 128⟩,
    ⟨"amb_space", "Deep Space", LoopCategory.AMBIENT, 128⟩,
    ⟨"amb_pads", "Ethereal Pads", LoopCategory.AMBIENT, 128⟩,
    ⟨"perc_glitch", "Glitch Click", LoopCategory.PERC, 128⟩,
    ⟨"perc_shaker", "Shakers", LoopCategory.PERC, 128⟩ ]

/-- State of a smoothed Web Audio parameter: the last scheduled smoothing
target and the time constant it was scheduled with. -/
structure SParam where
  target : ℚ
  tc : ℚ
  deriving DecidableEq

/-- Biquad filter modes used by the engine. -/
inductive FilterType
  | lowpass
  | highpass
  deriving DecidableEq

/-- State of a `BiquadFilterNode` (type, frequency parameter, Q). -/
structure BiquadState where
  ftype : FilterType
  freq : SParam
  q : ℚ
  deriving DecidableEq

/-- The four mappable control axes. -/
inductive Axis
  | x
  | y
  | z
  | spread
  deriving DecidableEq

/-- Mutable state of one `LoopChannel` (Visualizer.tsx, class LoopChannel):
the smoothed parameters of its effect nodes, the sequencer clock, the active
loop, the dog-mode flag and the axis-to-effect mapping table. -/
structure ChannelState where
  bpm : ℚ
  gainNode : SParam
  filterNode : BiquadState
  rotationFilterNode : BiquadState
  delayFeedback : SParam
  reverbGain : SParam
  flangerWet : SParam
  presenceGain : SParam
  isPlaying : Bool
  currentLoop : Option LoopDefinition
  nextNoteTime : ℚ
  currentStep : ℕ
  pendingWake : Bool
  isDogMode : Bool
  xEffect : EffectType
  yEffect : EffectType
  zEffect : EffectType
  spreadEffect : EffectType
  deriving DecidableEq

/-- Channel state as built by the `LoopChannel` constructor: gain 0.8,
mappable filter open low-pass at 20000 Hz, rotation filter low-pass at
22000 Hz, dry delay/reverb/flanger, presence gate closed, sequencer stopped,
no loop, all axes unmapped.  (Web Audio biquad default Q is 1.) -/
def initialChannel : ChannelState :=
  { bpm := 128
    gainNode := ⟨8/10, 0⟩
    filterNode := ⟨FilterType.lowpass, ⟨20000, 0⟩, 1⟩
    rotationFilterNode := ⟨FilterType.lowpass, ⟨22000, 0⟩, 1⟩
    delayFeedback := ⟨0, 0⟩
    reverbGain := ⟨0, 0⟩
    flangerWet := ⟨0, 0⟩
    presenceGain := ⟨0, 0⟩
    isPlaying := false
    currentLoop := none
    nextNoteTime := 0
    currentStep := 0
    pendingWake := false
    isDogMode := false
    xEffect := EffectType.NONE
    yEffect := EffectType.NONE
    zEffect := EffectType.NONE
    spreadEffect := EffectType.NONE }

/-- The sound events a scheduled step can dispatch (the procedural
generators `playKick`, `playSnare`, `playHiHat`, `playSynthTone`,
`playAmbientPad`, `playPerc`, `playDistorted808`). -/
inductive Voice
  | kick
  | snare
  | hihat
  | synthTone (freq : ℚ)
  | ambientPad (freq : ℚ)
  | perc
  | dist808 (freq : ℚ)
  deriving DecidableEq

namespace LoopChannel

/-- LoopChannel.applyEffect: clamp the incoming value to [0,1]
(`Math.max(0, Math.min(1, value))`), force it to 0 for VOLUME when muted,
then schedule the corresponding smoothed parameter target with a 0.1 s time
constant. -/
def applyEffect (ty : EffectType) (value : ℚ) (isMuted : Bool) (s : ChannelState) :
    ChannelState :=
  let v0 := max 0 (min 1 value)
  let v := if ty = EffectType.VOLUME ∧ isMuted = true then 0 else v0
  match ty with
  | EffectType.VOLUME => { s with gainNode := ⟨v, 1/10⟩ }
  | EffectType.LPF =>
      { s with filterNode :=
          ⟨FilterType.lowpass, ⟨100 + v ^ 2 * 19900, 1/10⟩, 1⟩ }
  | EffectType.HPF =>
      { s with filterNode := ⟨FilterType.highpass, ⟨v * 10000, 1/10⟩, 1⟩ }
  | EffectType.REVERB => { s with reverbGain := ⟨v * 2, 1/10⟩ }
  | EffectType.DELAY => { s with delayFeedback := ⟨v * (8/10), 1/10⟩ }
  | EffectType.FLANGER => { s with flangerWet := ⟨v, 1/10⟩ }
  | EffectType.NONE => s

/-- The rotation-filter block at the end of LoopChannel.update: active and
not a fist selects a cubic low-pass curve below the deadzone, a linear
high-pass curve above it, and a 22000 Hz low-pass reset inside it; inactive
or fist bypasses (low-pass, 22000 Hz target). -/
def applyRotFilter (rot : ℚ) (isRotActive isFist : Bool) (s : ChannelState) :
    ChannelState :=
  if isRotActive && !isFist then
    if rot < -(1/10) then
      { s with rotationFilterNode :=
          ⟨FilterType.lowpass, ⟨40 + ((rot + 1) / (9/10)) ^ 3 * 19960, 1/10⟩, 1⟩ }
    else if (1/10) < rot then
      { s with rotationFilterNode :=
          ⟨FilterType.highpass, ⟨10 + ((rot - 1/10) / (9/10)) * 3990, 1/10⟩, 1⟩ }
    else
      { s with rotationFilterNode :=
          { s.rotationFilterNode with
              ftype := FilterType.lowpass, freq := ⟨22000, 1/10⟩ } }
  else
    { s with rotationFilterNode :=
        { s.rotationFilterNode with
            ftype := FilterType.lowpass, freq := ⟨22000, 1/10⟩ } }

/-- LoopChannel.update: derive the fist flag (`spread < 0.15`), apply the
four mapped effects in x, y, z, spread order, then run the rotation-filter
logic. -/
def update (x y spread z rot : ℚ) (isRotActive : Bool) (s : ChannelState) :
    ChannelState :=
  let isFist : Bool := decide (spread < 3/20)
  let s1 := applyEffect s.xEffect x isFist s
  let s2 := applyEffect s.yEffect y isFist s1
  let s3 := applyEffect s.zEffect z isFist s2
  let s4 := applyEffect s.spreadEffect spread isFist s3
  applyRotFilter rot isRotActive isFist s4

/-- LoopChannel.resetUnmappedEffects: drive every effect parameter whose
effect type is referenced by no axis back to its default with a 0.5 s time
constant (the filter only when neither LPF nor HPF is referenced). -/
def resetUnmappedEffects (s : ChannelState) : ChannelState :=
  let mapped : List EffectType := [s.xEffect, s.yEffect, s.zEffect, s.spreadEffect]
  let s1 := if EffectType.VOLUME ∈ mapped then s
            else { s with gainNode := ⟨8/10, 1/2⟩ }
  let s2 := if EffectType.LPF ∈ mapped ∨ EffectType.HPF ∈ mapped then s1
            else { s1 with filterNode :=
                { s1.filterNode with
                    ftype := FilterType.lowpass, freq := ⟨20000, 1/2⟩ } }
  let s3 := if EffectType.REVERB ∈ mapped then s2
            else { s2 with reverbGain := ⟨0, 1/2⟩ }
  let s4 := if EffectType.DELAY ∈ mapped then s3
            else { s3 with delayFeedback := ⟨0, 1/2⟩ }
  if EffectType.FLANGER ∈ mapped then s4
  else { s4 with flangerWet := ⟨0, 1/2⟩ }

/-- LoopChannel.setMapping: reassign one axis, then reset the effects no
axis references any more. -/
def setMapping (axis : Axis) (effect : EffectType) (s : ChannelState) : ChannelState :=
  let s0 :=
    match axis with
    | Axis.x => { s with xEffect := effect }
    | Axis.y => { s with yEffect := effect }
    | Axis.z => { s with zEffect := effect }
    | Axis.spread => { s with spreadEffect := effect }
  resetUnmappedEffects s0

/-- LoopChannel.setPresence: in dog mode the presence gate is driven toward
1 regardless of hand presence; otherwise toward 1 or 0 following it
(0.1 s time constant in both cases). -/
def setPresence (isPresent : Bool) (s : ChannelState) : ChannelState :=
  if s.isDogMode then { s with presenceGain := ⟨1, 1/10⟩ }
  else { s with presenceGain := ⟨(if isPresent then 1 else 0), 1/10⟩ }

/-- String prefix test modelling JS `String.prototype.startsWith`. -/
def strStartsWith (s p : String) : Bool := p.data.isPrefixOf s.data

/-- The note table of the neon arp (`const notes = [220, 330, 440, 660]`). -/
def neonNotes : List ℚ := [220, 330, 440, 660]

/-- LoopChannel.schedule: the per-step generator dispatch.  In dog mode it
plays the fixed distorted-808 pattern and ignores the active loop; otherwise
it dispatches according to the active loop id (nothing when no loop is
active).  `rand` stands for the `Math.random()` draw of the perc branch. -/
def schedule (isDogMode : Bool) (currentLoop : Option LoopDefinition)
    (beat : ℕ) (rand : ℚ) : List Voice :=
  if isDogMode then
    let step := beat % 16
    (if step = 0 then [Voice.dist808 45] else []) ++
    (if step = 3 then [Voice.dist808 45] else []) ++
    (if step = 7 then [Voice.dist808 45] else []) ++
    (if step = 10 then [Voice.dist808 55] else []) ++
    (if step = 12 then [Voice.dist808 35] else []) ++
    (if step = 14 then [Voice.dist808 35] else [])
  else
    match currentLoop with
    | none => []
    | some loop =>
      let id := loop.id
      let step := beat % 16
      if id = "drum_house" then
        (if step % 4 = 0 then [Voice.kick] else []) ++
        (if step % 8 = 4 then [Voice.snare] else []) ++
        (if step % 2 ≠ 0 then [Voice.hihat] else [])
      else if id = "drum_break" then
        (if step = 0 ∨ step = 10 then [Voice.kick] else []) ++
        (if step = 4 ∨ step = 12 then [Voice.snare] else []) ++
        (if step % 2 = 0 then [Voice.hihat] else [])
      else if id = "synth_neon" then
        (if step % 2 = 0 then [Voice.synthTone (neonNotes.getD (step / 2 % 4) 0)]
         else [])
      else if id = "synth_bass" then
        (if step = 0 ∨ step = 8 then [Voice.synthTone 55] else []) ++
        (if step = 3 ∨ step = 11 then [Voice.synthTone 110] else [])
      else if strStartsWith id "amb" then
        (if step = 0 then
          [Voice.ambientPad (if id = "amb_space" then 110 else 1648/10)]
         else [])
      else if strStartsWith id "perc" then
        (if 1/2 < rand then [Voice.perc] else [])
      else []

/-- LoopChannel.nextNote: advance the clock by one 16th note
(`60/bpm * 0.25` seconds) and the step counter by one. -/
def nextNote (s : ChannelState) : ChannelState :=
  let secondsPerBeat := 60 / s.bpm
  let secondsPer16th := secondsPerBeat * (1/4)
  { s with nextNoteTime := s.nextNoteTime + secondsPer16th
           currentStep := s.currentStep + 1 }

/-- One dispatched step of a scheduler wake: its step index, its scheduled
audio-clock time, and the voices the generator dispatch produced for it. -/
structure WakeEvent where
  step : ℕ
  time : ℚ
  voices : List Voice
  deriving DecidableEq

/-- The look-ahead loop of LoopChannel.scheduler: while `nextNoteTime` is
inside the 100 ms look-ahead window, dispatch the current step and advance
the clock.  `fuel` bounds the loop (the JS loop terminates because each
iteration moves `nextNoteTime` forward by a positive step duration). -/
def schedulerWake (fuel : ℕ) (now : ℚ) (rand : ℕ → ℚ) (s : ChannelState) :
    ChannelState × List WakeEvent :=
  match fuel with
  | 0 => (s, [])
  | fuel + 1 =>
    if s.nextNoteTime < now + 1/10 then
      let ev : WakeEvent :=
        ⟨s.currentStep, s.nextNoteTime,
         schedule s.isDogMode s.currentLoop s.currentStep (rand s.currentStep)⟩
      let r := schedulerWake fuel now rand (nextNote s)
      (r.1, ev :: r.2)
    else (s, [])

/-- A full scheduler wake: run the look-ahead loop, then re-arm the timer
25 ms later iff the channel is playing (the third component is the delay of
the next wake, `none` when none is scheduled). -/
def schedulerTick (fuel : ℕ) (now : ℚ) (rand : ℕ → ℚ) (s : ChannelState) :
    ChannelState × List WakeEvent × Option ℚ :=
  let r := schedulerWake fuel now rand s
  ({ r.1 with pendingWake := r.1.isPlaying }, r.2,
   if r.1.isPlaying then some (25/1000) else none)

/-- Wake helper: a timer callback only runs if a wake is pending. -/
def wakeIfPending (fuel : ℕ) (now : ℚ) (rand : ℕ → ℚ) (s : ChannelState) :
    ChannelState × List WakeEvent × Option ℚ :=
  if s.pendingWake then schedulerTick fuel now rand s else (s, [], none)

/-- LoopChannel.start: a no-op while playing; otherwise seed
`nextNoteTime = now + 0.1`, `currentStep = 0` and arm the scheduler.  (The
immediate `scheduler()` call dispatches nothing at time `now`, since
`now + 0.1` is not below the look-ahead horizon `now + 0.1`; it only arms
the next wake, recorded here as `pendingWake := true`.) -/
def start (now : ℚ) (s : ChannelState) : ChannelState :=
  if s.isPlaying then s
  else
    { s with isPlaying := true
             nextNoteTime := now + 1/10
             currentStep := 0
             pendingWake := true }

/-- LoopChannel.stop: stop playing and cancel the pending wake
(`window.clearTimeout`). -/
def stop (s : ChannelState) : ChannelState :=
  { s with isPlaying := false, pendingWake := false }

/-- LoopChannel.setLoop: null clears the active loop; otherwise look the id
up in the catalog (an unknown id yields `none`); a found loop on a stopped
channel starts the sequencer. -/
def setLoop (now : ℚ) (loopId : Option String) (s : ChannelState) : ChannelState :=
  match loopId with
  | none => { s with currentLoop := none }
  | some lid =>
    let found := AVAILABLE_LOOPS.find? (fun l => l.id == lid)
    let s1 := { s with currentLoop := found }
    if s1.isPlaying = false ∧ found.isSome = true then start now s1 else s1

end LoopChannel

/-- State of the `SynthEngine`: the two channels and the global dog-mode
flag. -/
structure EngineState where
  left : ChannelState
  right : ChannelState
  isDogMode : Bool
  deriving DecidableEq

/-- Engine as built by the `SynthEngine` constructor. -/
def initialEngine : EngineState :=
  { left := initialChannel, right := initialChannel, isDogMode := false }

namespace SynthEngine

/-- SynthEngine.setBpm: write the shared BPM into both channels. -/
def setBpm (bpm : ℚ) (e : EngineState) : EngineState :=
  { e with left := { e.left with bpm := bpm }
           right := { e.right with bpm := bpm } }

/-- SynthEngine.setDogMode: idempotent flag flip; on activation, force both
presence gates open via setPresence. -/
def setDogMode (active : Bool) (e : EngineState) : EngineState :=
  if e.isDogMode = active then e
  else
    let e1 : EngineState :=
      { isDogMode := active
        left := { e.left with isDogMode := active }
        right := { e.right with isDogMode := active } }
    if active then
      { e1 with left := LoopChannel.setPresence true e1.left
                right := LoopChannel.setPresence true e1.right }
    else e1

end SynthEngine

/-- App.tsx handleBpmChange: clamp the requested BPM to [40, 300]
(`Math.max(40, Math.min(300, newBpm))`) and hand it to the engine. -/
def handleBpmChange (newBpm : ℚ) (e : EngineState) : EngineState :=
  SynthEngine.setBpm (max 40 (min 300 newBpm)) e

/-- Audio-graph node names of one channel (the engine destination, the
channel's persistent nodes, and the nodes a distorted-808 voice creates). -/
inductive NodeRef
  | destination
  | masterOutput
  | presenceGain
  | gainNode
  | rotationFilterNode
  | reverbNode
  | reverbGain
  | delayNode
  | delayFeedback
  | filterNode
  | flangerDelay
  | flangerFeedback
  | flangerWet
  | flangerLFO
  | flangerLFOGain
  | inputGain
  | osc808
  | shaper808
  | gain808
  deriving DecidableEq

/-- Audio connections made by the `LoopChannel` constructor, plus the lazy
input gain of `getInputNode`. -/
def channelEdges : List (NodeRef × NodeRef) :=
  [ (NodeRef.masterOutput, NodeRef.destination),
    (NodeRef.presenceGain, NodeRef.masterOutput),
    (NodeRef.gainNode, NodeRef.presenceGain),
    (NodeRef.rotationFilterNode, NodeRef.gainNode),
    (NodeRef.reverbNode, NodeRef.reverbGain),
    (NodeRef.reverbGain, NodeRef.rotationFilterNode),
    (NodeRef.delayNode, NodeRef.delayFeedback),
    (NodeRef.delayFeedback, NodeRef.delayNode),
    (NodeRef.delayNode, NodeRef.rotationFilterNode),
    (NodeRef.delayNode, NodeRef.reverbNode),
    (NodeRef.filterNode, NodeRef.delayNode),
    (NodeRef.filterNode, NodeRef.reverbNode),
    (NodeRef.filterNode, NodeRef.rotationFilterNode),
    (NodeRef.flangerLFO, NodeRef.flangerLFOGain),
    (NodeRef.flangerLFOGain, NodeRef.flangerDelay),
    (NodeRef.flangerDelay, NodeRef.flangerFeedback),
    (NodeRef.flangerFeedback, NodeRef.flangerDelay),
    (NodeRef.flangerDelay, NodeRef.flangerWet),
    (NodeRef.flangerWet, NodeRef.filterNode),
    (NodeRef.inputGain, NodeRef.filterNode),
    (NodeRef.inputGain, NodeRef.flangerDelay) ]

/-- Audio connections made by LoopChannel.playDistorted808:
oscillator to waveshaper to gain, writing directly to `masterOutput`. -/
def distorted808Edges : List (NodeRef × NodeRef) :=
  [ (NodeRef.osc808, NodeRef.shaper808),
    (NodeRef.shaper808, NodeRef.gain808),
    (NodeRef.gain808, NodeRef.masterOutput) ]

/-- A 2-D landmark point (normalized image-plane coordinates). -/
structure Pt where
  x : ℝ
  y : ℝ

/-- JS Math.atan2, with the (-pi, pi] branch cut, via the complex argument. -/
noncomputable def atan2 (y x : ℝ) : ℝ := Complex.arg ⟨x, y⟩

/-- Euclidean distance between two landmarks, as computed in
calculateHandMetrics (`Math.sqrt(dx*dx + dy*dy)`). -/
noncomputable def ptDist (a b : Pt) : ℝ :=
  Real.sqrt ((a.x - b.x) * (a.x - b.x) + (a.y - b.y) * (a.y - b.y))

/-- The fingertip landmark indices (thumb, index, middle, ring, pinky). -/
def fingertipIdx : List (Fin 21) := [4, 8, 12, 16, 20]

/-- The result of calculateHandMetrics. -/
structure HandMetrics where
  spread : ℝ
  z : ℝ
  rotation : ℝ

/-- App.tsx calculateHandMetrics: hand scale from wrist (0) to middle-finger
MCP (9), spread from the mean fingertip distance to the wrist normalized by
the hand scale, z from the hand scale itself, and rotation from the angle of
the wrist-to-middle-MCP vector, sign-mirrored by handedness and clamped to
[-1, 1].  There is no guard on a small `handScale`: the divisions are
performed unconditionally (`x / 0 = 0` here stands in for the JS NaN /
Infinity results). -/
noncomputable def calculateHandMetrics (lm : Fin 21 → Pt) (isRightHand : Bool) :
    HandMetrics :=
  let wrist := lm 0
  let middleMCP := lm 9
  let dx := wrist.x - middleMCP.x
  let dy := wrist.y - middleMCP.y
  let handScale := Real.sqrt (dx * dx + dy * dy)
  let totalDist := (fingertipIdx.map (fun i => ptDist (lm i) wrist)).sum
  let avgDist := totalDist / 5
  let ratio := avgDist / handScale
  let minRatio : ℝ := 8/10
  let maxRatio : ℝ := 17/10
  let spread := max 0 (min 1 ((ratio - minRatio) / (maxRatio - minRatio)))
  let minScale : ℝ := 1/20
  let maxScale : ℝ := 3/10
  let z := max 0 (min 1 ((handScale - minScale) / (maxScale - minScale)))
  let rad := atan2 (middleMCP.y - wrist.y) (middleMCP.x - wrist.x)
  let deg := rad * (180 / Real.pi)
  let rot := if isRightHand then -(deg + 90) / 90 else (deg + 90) / 90
  ⟨spread, z, max (-1) (min 1 rot)⟩

/-- App.tsx predictWebcam x control value: the index fingertip (landmark 8)
x coordinate clamped to [0, 1]. -/
noncomputable def controlX (lm : Fin 21 → Pt) : ℝ := max 0 (min 1 (lm 8).x)

/-- App.tsx predictWebcam y control value: the index fingertip y coordinate
inverted and clamped to [0, 1]. -/
noncomputable def controlY (lm : Fin 21 → Pt) : ℝ := max 0 (min 1 (1 - (lm 8).y))

/-- Spec-side spread formula: clamp(((mean fingertip-to-wrist distance /
handScale) - 0.8) / (1.7 - 0.8), 0, 1), with handScale the distance from the
wrist to the middle-finger base. -/
noncomputable def specSpread (lm : Fin 21 → Pt) : ℝ :=
  max 0 (min 1
    ((((ptDist (lm 4) (lm 0) + ptDist (lm 8) (lm 0) + ptDist (lm 12) (lm 0) +
        ptDist (lm 16) (lm 0) + ptDist (lm 20) (lm 0)) / 5) / ptDist (lm 0) (lm 9)
        - 8/10) / (17/10 - 8/10)))

/-- Spec-side z formula: clamp((handScale - 0.05) / (0.3 - 0.05), 0, 1). -/
noncomputable def specZ (lm : Fin 21 → Pt) : ℝ :=
  max 0 (min 1 ((ptDist (lm 0) (lm 9) - 1/20) / (3/10 - 1/20)))

/-- Spec-side rotation formula: clamp(-(angleDeg + 90)/90, -1, 1) for the
right hand and clamp((angleDeg + 90)/90, -1, 1) for the left hand. -/
noncomputable def specRot (isRightHand : Bool) (angleDeg : ℝ) : ℝ :=
  if isRightHand then max (-1) (min 1 (-(angleDeg + 90) / 90))
  else max (-1) (min 1 ((angleDeg + 90) / 90))

/-- A degenerate hand frame: all 21 landmarks coincide, so the hand scale
(wrist to middle-finger base) is exactly 0. -/
def degenerateHand : Fin 21 → Pt := fun _ => ⟨0, 0⟩

/-- Concrete playing channel for the C3 witness: bpm 120 (step duration
1/8 s), clock at 0. -/
def chanC3W : ChannelState := { initialChannel with bpm := 120, isPlaying := true }

/-- Reachable channel: x axis mapped to HPF, then one gesture update with
x = 0.5 and an open hand, leaving the mappable filter high-pass at 5000. -/
def c6state : ChannelState :=
  LoopChannel.update (1/2) 0 1 0 0 false
    (LoopChannel.setMapping Axis.x EffectType.HPF initialChannel)

/-- The channel after mapping the x axis to HPF on a fresh channel: the
reset drives the unmapped defaults (0.5 s tc) and keeps the filter. -/
def c6mid : ChannelState :=
  { initialChannel with
    xEffect := EffectType.HPF
    gainNode := ⟨8/10, 1/2⟩
    reverbGain := ⟨0, 1/2⟩
    delayFeedback := ⟨0, 1/2⟩
    flangerWet := ⟨0, 1/2⟩ }

namespace LoopChannel

lemma applyEffect_gainNode (ty : EffectType) (v : ℚ) (m : Bool) (s : ChannelState) :
    (applyEffect ty v m s).gainNode =
      if ty = EffectType.VOLUME then ⟨if m then 0 else max 0 (min 1 v), 1/10⟩
      else s.gainNode := by
  cases ty <;> cases m <;> simp [applyEffect]

lemma applyEffect_rotationFilterNode (ty : EffectType) (v : ℚ) (m : Bool)
    (s : ChannelState) :
    (applyEffect ty v m s).rotationFilterNode = s.rotationFilterNode := by
  cases ty <;> simp [applyEffect]

lemma applyRotFilter_gainNode (rot : ℚ) (a f : Bool) (s : ChannelState) :
    (applyRotFilter rot a f s).gainNode = s.gainNode := by
  unfold applyRotFilter; split_ifs <;> rfl

/-- C1: applyEffect first clamps the control value to [0,1] and then sets the
corresponding smoothed target with a 0.1 s time constant: VOLUME sets the
gain target (to 0 when muted), LPF/HPF set the mappable filter to
low-pass `100 + v^2*19900` Hz / high-pass `v*10000` Hz, REVERB sets the wet
send to `v*2`, DELAY sets the delay feedback to `v*0.8`, FLANGER sets the
flanger wet gain to `v`, and NONE changes nothing.  In update, a spread
below 0.15 mutes every VOLUME-mapped axis, so the gain target becomes 0
regardless of the axis's own value. -/
theorem C1_applyEffect_targets :
    (∀ v m s, applyEffect EffectType.VOLUME v m s =
      { s with gainNode := ⟨if m then 0 else max 0 (min 1 v), 1/10⟩ }) ∧
    (∀ v m s, applyEffect EffectType.LPF v m s =
      { s with filterNode :=
          ⟨FilterType.lowpass, ⟨100 + (max 0 (min 1 v)) ^ 2 * 19900, 1/10⟩, 1⟩ }) ∧
    (∀ v m s, applyEffect EffectType.HPF v m s =
      { s with filterNode :=
          ⟨FilterType.highpass, ⟨(max 0 (min 1 v)) * 10000, 1/10⟩, 1⟩ }) ∧
    (∀ v m s, applyEffect EffectType.REVERB v m s =
      { s with reverbGain := ⟨(max 0 (min 1 v)) * 2, 1/10⟩ }) ∧
    (∀ v m s, applyEffect EffectType.DELAY v m s =
      { s with delayFeedback := ⟨(max 0 (min 1 v)) * (8/10), 1/10⟩ }) ∧
    (∀ v m s, applyEffect EffectType.FLANGER v m s =
      { s with flangerWet := ⟨max 0 (min 1 v), 1/10⟩ }) ∧
    (∀ v m s, applyEffect EffectType.NONE v m s = s) ∧
    (∀ x y spread z rot act s, spread < 3/20 →
      (s.xEffect = EffectType.VOLUME ∨ s.yEffect = EffectType.VOLUME ∨
       s.zEffect = EffectType.VOLUME ∨ s.spreadEffect = EffectType.VOLUME) →
      (update x y spread z rot act s).gainNode.target = 0) := by
  refine ⟨?_, ?_, ?_, ?_, ?_, ?_, ?_, ?_⟩
  · intro v m s; cases m <;> simp [applyEffect]
  · intro v m s; cases m <;> simp [applyEffect]
  · intro v m s; cases m <;> simp [applyEffect]
  · intro v m s; cases m <;> simp [applyEffect]
  · intro v m s; cases m <;> simp [applyEffect]
  · intro v m s; cases m <;> simp [applyEffect]
  · intro v m s; cases m <;> simp [applyEffect]
  · intro x y spread z rot act s hsp hvol
    have hf : decide (spread < 3/20) = true := decide_eq_true hsp
    simp only [update, applyRotFilter_gainNode, applyEffect_gainNode, hf]
    rcases hvol with h | h | h | h <;> split_ifs <;> simp_all

/-- Witness for C1 at a concrete input: with the x axis mapped to VOLUME and
a fist (spread 0.1 below the 0.15 threshold), update forces the gain target
to 0 even though x itself is 0.5. -/
theorem C1_witness :
    (update (1/2) (1/2) (1/10) (1/2) 0 false
      { initialChannel with xEffect := EffectType.VOLUME }).gainNode.target = 0 :=
  C1_applyEffect_targets.2.2.2.2.2.2.2 (1/2) (1/2) (1/10) (1/2) 0 false
    { initialChannel with xEffect := EffectType.VOLUME }
    (by norm_num) (Or.inl rfl)

/-- C2: the rotation filter after update: inactive rotation or a fist
(spread below 0.15) resets it to a low-pass with a 22000 Hz target (bypass);
otherwise rotation below -0.1 selects a low-pass with target
`40 + ((rot+1)/0.9)^3 * 19960` Hz, rotation above 0.1 a high-pass with
target `10 + ((rot-0.1)/0.9) * 3990` Hz, and the deadzone [-0.1, 0.1] resets
to the low-pass 22000 Hz bypass. -/
theorem C2_rotation_filter (x y spread z rot : ℚ) (act : Bool) (s : ChannelState) :
    ((act = false ∨ spread < 3/20) →
       (update x y spread z rot act s).rotationFilterNode.ftype = FilterType.lowpass ∧
       (update x y spread z rot act s).rotationFilterNode.freq = ⟨22000, 1/10⟩) ∧
    (act = true → ¬ spread < 3/20 → rot < -(1/10) →
       (update x y spread z rot act s).rotationFilterNode =
         ⟨FilterType.lowpass, ⟨40 + ((rot + 1) / (9/10)) ^ 3 * 19960, 1/10⟩, 1⟩) ∧
    (act = true → ¬ spread < 3/20 → (1/10) < rot →
       (update x y spread z rot act s).rotationFilterNode =
         ⟨FilterType.highpass, ⟨10 + ((rot - 1/10) / (9/10)) * 3990, 1/10⟩, 1⟩) ∧
    (act = true → ¬ spread < 3/20 → -(1/10) ≤ rot → rot ≤ 1/10 →
       (update x y spread z rot act s).rotationFilterNode.ftype = FilterType.lowpass ∧
       (update x y spread z rot act s).rotationFilterNode.freq = ⟨22000, 1/10⟩) := by
  refine ⟨?_, ?_, ?_, ?_⟩
  · rintro (ha | hsp)
    · subst ha; simp [update, applyRotFilter]
    · have hf : decide (spread < 3/20) = true := decide_eq_true hsp
      simp [update, applyRotFilter, hf]
  · intro ha hsp hrot
    subst ha
    have hf : decide (spread < 3/20) = false := decide_eq_false hsp
    simp [update, applyRotFilter, hf]
    split_ifs <;> first | rfl | linarith
  · intro ha hsp hrot
    subst ha
    have hf : decide (spread < 3/20) = false := decide_eq_false hsp
    simp [update, applyRotFilter, hf]
    split_ifs <;> first | rfl | linarith
  · intro ha hsp h1 h2
    subst ha
    have hf : decide (spread < 3/20) = false := decide_eq_false hsp
    have hres : (update x y spread z rot true s).rotationFilterNode =
        { s.rotationFilterNode with
            ftype := FilterType.lowpass, freq := ⟨22000, 1/10⟩ } := by
      simp [update, applyRotFilter, hf]
      split_ifs <;> first | linarith | simp [applyEffect_rotationFilterNode]
    rw [hres]
    exact ⟨rfl, rfl⟩

/-- Witness for C2 at a concrete input: open hand (spread 1), rotation
active, rotation value 0 inside the deadzone: the rotation filter resolves
to a low-pass with a 22000 Hz target. -/
theorem C2_witness :
    (update (1/2) (1/2) 1 (1/2) 0 true initialChannel).rotationFilterNode.ftype =
        FilterType.lowpass ∧
      (update (1/2) (1/2) 1 (1/2) 0 true initialChannel).rotationFilterNode.freq =
        ⟨22000, 1/10⟩ :=
  (C2_rotation_filter (1/2) (1/2) 1 (1/2) 0 true initialChannel).2.2.2
    rfl (by norm_num) (by norm_num) (by norm_num)

end LoopChannel


namespace LoopChannel

lemma nextNote_eq (s : ChannelState) :
    nextNote s = { s with nextNoteTime := s.nextNoteTime + 60 / (s.bpm * 4)
                          currentStep := s.currentStep + 1 } := by
  have harith : (60 / s.bpm) * (1/4 : ℚ) = 60 / (s.bpm * 4) := by
    rw [div_mul_div_comm, mul_one]
  show ({ s with nextNoteTime := s.nextNoteTime + 60 / s.bpm * (1/4)
                 currentStep := s.currentStep + 1 } : ChannelState) = _
  rw [harith]

lemma schedulerWake_isPlaying (fuel : ℕ) (now : ℚ) (rand : ℕ → ℚ) :
    ∀ s : ChannelState, (schedulerWake fuel now rand s).1.isPlaying = s.isPlaying := by
  induction fuel with
  | zero => intro s; rfl
  | succ n ih =>
    intro s
    simp only [schedulerWake]
    by_cases h : s.nextNoteTime < now + 1/10
    · rw [if_pos h]
      exact (ih (nextNote s)).trans rfl
    · rw [if_neg h]

lemma schedulerWake_closed (now : ℚ) (rand : ℕ → ℚ) :
    ∀ (k : ℕ) (s : ChannelState) (fuel : ℕ),
      k ≤ fuel →
      (∀ i : ℕ, i < k → s.nextNoteTime + i * (60 / (s.bpm * 4)) < now + 1/10) →
      ¬ s.nextNoteTime + k * (60 / (s.bpm * 4)) < now + 1/10 →
      schedulerWake fuel now rand s =
        ({ s with nextNoteTime := s.nextNoteTime + k * (60 / (s.bpm * 4))
                  currentStep := s.currentStep + k },
         (List.range k).map (fun i =>
           ⟨s.currentStep + i, s.nextNoteTime + i * (60 / (s.bpm * 4)),
            schedule s.isDogMode s.currentLoop (s.currentStep + i)
              (rand (s.currentStep + i))⟩)) := by
  intro k
  induction k with
  | zero =>
    intro s fuel _ _ hstop
    have hc : ¬ s.nextNoteTime < now + 1/10 := by simpa using hstop
    cases fuel with
    | zero =>
      simp only [schedulerWake]
      simp
    | succ n =>
      simp only [schedulerWake]
      rw [if_neg hc]
      simp
  | succ k ih =>
    intro s fuel hfuel hlt hstop
    obtain ⟨n, rfl⟩ : ∃ n, fuel = n + 1 := ⟨fuel - 1, by omega⟩
    have hc : s.nextNoteTime < now + 1/10 := by
      have h0 := hlt 0 (by omega)
      simpa using h0
    have ih' := ih (nextNote s) n (by omega) ?_ ?_
    · rw [nextNote_eq] at ih'
      simp only [schedulerWake]
      rw [if_pos hc, nextNote_eq, ih']
      dsimp only
      simp only [Prod.mk.injEq, ChannelState.mk.injEq, List.range_succ_eq_map, List.map_cons,
        List.map_map, List.cons.injEq, WakeEvent.mk.injEq, eq_self_iff_true, true_and, and_true,
        Nat.cast_zero, zero_mul, add_zero, Nat.cast_succ]
      refine ⟨⟨by ring, by omega⟩, List.map_congr_left ?_⟩
      intro i _
      simp only [Function.comp_apply, WakeEvent.mk.injEq]
      have hs : s.currentStep + 1 + i = s.currentStep + Nat.succ i := by omega
      refine ⟨by omega, by push_cast; ring, by rw [hs]⟩
    · intro i hi
      rw [nextNote_eq]
      show s.nextNoteTime + 60 / (s.bpm * 4) + (i:ℚ) * (60 / (s.bpm * 4)) < now + 1/10
      have h1 := hlt (i + 1) (by omega)
      push_cast at h1 ⊢
      linarith
    · rw [nextNote_eq]
      show ¬ s.nextNoteTime + 60 / (s.bpm * 4) + (k:ℚ) * (60 / (s.bpm * 4)) < now + 1/10
      intro hcon
      apply hstop
      push_cast at hcon ⊢
      linarith

end LoopChannel

namespace LoopChannel

/-- C3: each scheduler wake dispatches, in order, every step whose event
time lies below the 100 ms look-ahead horizon, advancing the clock by exactly
`60/(bpm*4)` seconds and the step index by 1 per dispatched step, and re-arms
the timer 25 ms later iff the channel is playing; start on a stopped channel
seeds `nextNoteTime = now + 0.1`, `stepIndex = 0` (dispatching nothing at
seed time) and is a no-op while playing; stop cancels the pending wake so a
timer callback dispatches nothing until restarted. -/
theorem C3_scheduler_behavior :
    (∀ s : ChannelState, nextNote s =
      { s with nextNoteTime := s.nextNoteTime + 60 / (s.bpm * 4)
               currentStep := s.currentStep + 1 }) ∧
    (∀ (now : ℚ) (rand : ℕ → ℚ) (k : ℕ) (s : ChannelState) (fuel : ℕ),
      k ≤ fuel →
      (∀ i : ℕ, i < k → s.nextNoteTime + i * (60 / (s.bpm * 4)) < now + 1/10) →
      ¬ s.nextNoteTime + k * (60 / (s.bpm * 4)) < now + 1/10 →
      schedulerWake fuel now rand s =
        ({ s with nextNoteTime := s.nextNoteTime + k * (60 / (s.bpm * 4))
                  currentStep := s.currentStep + k },
         (List.range k).map (fun i =>
           ⟨s.currentStep + i, s.nextNoteTime + i * (60 / (s.bpm * 4)),
            schedule s.isDogMode s.currentLoop (s.currentStep + i)
              (rand (s.currentStep + i))⟩))) ∧
    (∀ (fuel : ℕ) (now : ℚ) (rand : ℕ → ℚ) (s : ChannelState),
      (schedulerTick fuel now rand s).2.2 =
        (if s.isPlaying then some ((25:ℚ)/1000) else none) ∧
      (schedulerTick fuel now rand s).1.pendingWake = s.isPlaying) ∧
    (∀ (now : ℚ) (s : ChannelState), s.isPlaying = false →
      start now s = { s with isPlaying := true
                             nextNoteTime := now + 1/10
                             currentStep := 0
                             pendingWake := true } ∧
      ∀ (fuel : ℕ) (rand : ℕ → ℚ),
        (schedulerWake fuel now rand (start now s)).2 = []) ∧
    (∀ (now : ℚ) (s : ChannelState), s.isPlaying = true → start now s = s) ∧
    (∀ s : ChannelState, (stop s).isPlaying = false ∧ (stop s).pendingWake = false ∧
      ∀ (fuel : ℕ) (now : ℚ) (rand : ℕ → ℚ),
        wakeIfPending fuel now rand (stop s) = (stop s, [], none)) := by
  refine ⟨nextNote_eq, fun now rand => schedulerWake_closed now rand, ?_, ?_, ?_, ?_⟩
  · intro fuel now rand s
    constructor
    · simp [schedulerTick, schedulerWake_isPlaying]
    · simp [schedulerTick, schedulerWake_isPlaying]
  · intro now s hs
    constructor
    · simp [start, hs]
    · intro fuel rand
      cases fuel with
      | zero => rfl
      | succ n =>
        simp only [schedulerWake, start, hs, Bool.false_eq_true, if_false]
        rw [if_neg (by simp [lt_self_iff_false])]
  · intro now s hs
    simp [start, hs]
  · intro s
    refine ⟨rfl, rfl, ?_⟩
    intro fuel now rand
    simp [wakeIfPending, stop]

end LoopChannel

/-- Witness for C3: waking chanC3W at time 0 dispatches exactly one step
(step 0 at time 0; the next event time 1/8 is beyond the 0.1 s horizon) and
advances the clock to 1/8. -/
theorem C3_witness :
    (LoopChannel.schedulerWake 2 0 (fun _ => 0) chanC3W).1.currentStep = 1 ∧
    (LoopChannel.schedulerWake 2 0 (fun _ => 0) chanC3W).1.nextNoteTime = 1/8 := by
  have h := LoopChannel.C3_scheduler_behavior.2.1 0 (fun _ => 0) 1 chanC3W 2 (by norm_num)
    (by intro i hi; interval_cases i; norm_num [chanC3W, initialChannel])
    (by norm_num [chanC3W, initialChannel])
  rw [h]
  norm_num [chanC3W, initialChannel]

open LoopChannel in
/-- C4: outside override mode the per-step generator dispatch matches the
active loop's rule exactly (step = stepIndex mod 16): drum_house fires kick
iff step%4=0, snare iff step%8=4, hi-hat iff step is odd; drum_break fires
kick at steps 0 and 10, snare at 4 and 12, hi-hat on even steps; synth_neon
plays a tone on even steps with frequency {220,330,440,660} Hz indexed by
(step/2) mod 4; synth_bass plays 55 Hz at steps 0 and 8 and 110 Hz at 3 and
11; amb_space / amb_pads play one pad only at step 0 (110 Hz resp.
164.8 Hz); perc loops fire iff the uniform Math.random draw exceeds 1/2,
an event of probability 1/2 (the last conjunct measures that event); and
with no active loop nothing is dispatched. -/
theorem C4_generator_dispatch (loop : LoopDefinition) (beat : ℕ) (rand : ℚ) :
    (loop.id = "drum_house" →
      (Voice.kick ∈ schedule false (some loop) beat rand ↔ beat % 16 % 4 = 0) ∧
      (Voice.snare ∈ schedule false (some loop) beat rand ↔ beat % 16 % 8 = 4) ∧
      (Voice.hihat ∈ schedule false (some loop) beat rand ↔ beat % 16 % 2 = 1) ∧
      (∀ v ∈ schedule false (some loop) beat rand,
        v = Voice.kick ∨ v = Voice.snare ∨ v = Voice.hihat)) ∧
    (loop.id = "drum_break" →
      (Voice.kick ∈ schedule false (some loop) beat rand ↔
        beat % 16 = 0 ∨ beat % 16 = 10) ∧
      (Voice.snare ∈ schedule false (some loop) beat rand ↔
        beat % 16 = 4 ∨ beat % 16 = 12) ∧
      (Voice.hihat ∈ schedule false (some loop) beat rand ↔ beat % 16 % 2 = 0) ∧
      (∀ v ∈ schedule false (some loop) beat rand,
        v = Voice.kick ∨ v = Voice.snare ∨ v = Voice.hihat)) ∧
    (loop.id = "synth_neon" →
      (beat % 16 % 2 = 0 → schedule false (some loop) beat rand =
        [Voice.synthTone (([220, 330, 440, 660] : List ℚ).getD (beat % 16 / 2 % 4) 0)]) ∧
      (beat % 16 % 2 = 1 → schedule false (some loop) beat rand = [])) ∧
    (loop.id = "synth_bass" →
      (Voice.synthTone 55 ∈ schedule false (some loop) beat rand ↔
        beat % 16 = 0 ∨ beat % 16 = 8) ∧
      (Voice.synthTone 110 ∈ schedule false (some loop) beat rand ↔
        beat % 16 = 3 ∨ beat % 16 = 11) ∧
      (∀ v ∈ schedule false (some loop) beat rand,
        v = Voice.synthTone 55 ∨ v = Voice.synthTone 110)) ∧
    (loop.id = "amb_space" →
      (beat % 16 = 0 → schedule false (some loop) beat rand = [Voice.ambientPad 110]) ∧
      (beat % 16 ≠ 0 → schedule false (some loop) beat rand = [])) ∧
    (loop.id = "amb_pads" →
      (beat % 16 = 0 →
        schedule false (some loop) beat rand = [Voice.ambientPad (1648/10)]) ∧
      (beat % 16 ≠ 0 → schedule false (some loop) beat rand = [])) ∧
    ((loop.id = "perc_glitch" ∨ loop.id = "perc_shaker") →
      (Voice.perc ∈ schedule false (some loop) beat rand ↔ 1/2 < rand) ∧
      (∀ v ∈ schedule false (some loop) beat rand, v = Voice.perc)) ∧
    (schedule false none beat rand = []) ∧
    (MeasureTheory.volume {r : ℝ | 0 ≤ r ∧ r < 1 ∧ 1/2 < r} = ENNReal.ofReal (1/2)) := by
  have hb : beat % 16 < 16 := Nat.mod_lt _ (by norm_num)
  refine ⟨?_, ?_, ?_, ?_, ?_, ?_, ?_, ?_, ?_⟩
  · intro h
    simp only [schedule, h]
    set n := beat % 16 with hn
    interval_cases n <;>
      · simp only [String.reduceEq, Bool.false_eq_true, if_false, if_true]
        decide
  · intro h
    simp only [schedule, h]
    set n := beat % 16 with hn
    interval_cases n <;>
      · simp only [String.reduceEq, Bool.false_eq_true, if_false, if_true]
        decide
  · intro h
    simp only [schedule, h]
    set n := beat % 16 with hn
    interval_cases n <;>
      · simp only [String.reduceEq, Bool.false_eq_true, if_false, if_true]
        decide
  · intro h
    simp only [schedule, h]
    set n := beat % 16 with hn
    interval_cases n <;>
      · simp only [String.reduceEq, Bool.false_eq_true, if_false, if_true]
        decide
  · intro h
    have hs : strStartsWith "amb_space" "amb" = true := by decide
    simp only [schedule, h]
    set n := beat % 16 with hn
    interval_cases n <;>
      · simp only [String.reduceEq, Bool.false_eq_true, if_false, if_true, hs,
          eq_self_iff_true]
        decide
  · intro h
    have hs : strStartsWith "amb_pads" "amb" = true := by decide
    simp only [schedule, h]
    set n := beat % 16 with hn
    interval_cases n <;>
      · simp only [String.reduceEq, Bool.false_eq_true, if_false, if_true, hs,
          eq_self_iff_true]
        decide
  · intro h
    have ha1 : strStartsWith "perc_glitch" "amb" = false := by decide
    have hp1 : strStartsWith "perc_glitch" "perc" = true := by decide
    have ha2 : strStartsWith "perc_shaker" "amb" = false := by decide
    have hp2 : strStartsWith "perc_shaker" "perc" = true := by decide
    rcases h with h | h <;>
      · simp only [schedule, h]
        by_cases hr : (1:ℚ)/2 < rand <;>
          simp [ha1, hp1, ha2, hp2, hr]
  · rfl
  · have hset : {r : ℝ | 0 ≤ r ∧ r < 1 ∧ 1/2 < r} = Set.Ioo (1/2 : ℝ) 1 := by
      ext r
      constructor
      · rintro ⟨_, h1, h2⟩; exact ⟨h2, h1⟩
      · rintro ⟨h2, h1⟩; exact ⟨by linarith, h1, h2⟩
    rw [hset, Real.volume_Ioo]
    norm_num

/-- Witness for C4: with drum_house active, step 4 dispatches a snare
(4 % 8 = 4). -/
theorem C4_witness :
    Voice.snare ∈ LoopChannel.schedule false
      (some ⟨"drum_house", "House Beat", LoopCategory.DRUMS, 128⟩) 4 0 :=
  (((C4_generator_dispatch ⟨"drum_house", "House Beat", LoopCategory.DRUMS, 128⟩
      4 0).1 rfl).2.1).mpr (by decide)

open LoopChannel in
/-- C5: in dog (override) mode every dispatched step ignores the channel's
active loop entirely (the dispatch is the same for every loop value) and
triggers only the distorted low-tone voice, exactly at steps 0, 3, 7 (45 Hz),
10 (55 Hz), 12 and 14 (35 Hz) of the 16-step bar; the distorted-808 voice
connects oscillator, waveshaper, gain straight into the channel's final mix
point (masterOutput), touching none of the mappable filter, delay, reverb,
rotation filter, volume stage or presence gate; and activating override mode
drives both channels' presence-gate targets to fully open (1). -/
theorem C5_dog_override (beat : ℕ) (rand : ℚ) :
    (∀ l₁ l₂ : Option LoopDefinition,
      schedule true l₁ beat rand = schedule true l₂ beat rand) ∧
    (∀ (loop : Option LoopDefinition) (f : ℚ),
      Voice.dist808 f ∈ schedule true loop beat rand ↔
        (f = 45 ∧ (beat % 16 = 0 ∨ beat % 16 = 3 ∨ beat % 16 = 7)) ∨
        (f = 55 ∧ beat % 16 = 10) ∨
        (f = 35 ∧ (beat % 16 = 12 ∨ beat % 16 = 14))) ∧
    (∀ (loop : Option LoopDefinition) (v : Voice),
      v ∈ schedule true loop beat rand → ∃ f, v = Voice.dist808 f) ∧
    ((NodeRef.gain808, NodeRef.masterOutput) ∈ distorted808Edges ∧
     (NodeRef.masterOutput, NodeRef.destination) ∈ channelEdges ∧
     distorted808Edges = [(NodeRef.osc808, NodeRef.shaper808),
       (NodeRef.shaper808, NodeRef.gain808),
       (NodeRef.gain808, NodeRef.masterOutput)] ∧
     ∀ e ∈ distorted808Edges,
       e.1 ∉ ([NodeRef.filterNode, NodeRef.delayNode, NodeRef.delayFeedback,
         NodeRef.reverbNode, NodeRef.reverbGain, NodeRef.rotationFilterNode,
         NodeRef.gainNode, NodeRef.presenceGain, NodeRef.flangerDelay,
         NodeRef.flangerWet] : List NodeRef) ∧
       e.2 ∉ ([NodeRef.filterNode, NodeRef.delayNode, NodeRef.delayFeedback,
         NodeRef.reverbNode, NodeRef.reverbGain, NodeRef.rotationFilterNode,
         NodeRef.gainNode, NodeRef.presenceGain, NodeRef.flangerDelay,
         NodeRef.flangerWet] : List NodeRef)) ∧
    (∀ e : EngineState, e.isDogMode = false →
      (SynthEngine.setDogMode true e).left.presenceGain = ⟨1, 1/10⟩ ∧
      (SynthEngine.setDogMode true e).right.presenceGain = ⟨1, 1/10⟩ ∧
      (SynthEngine.setDogMode true e).left.isDogMode = true ∧
      (SynthEngine.setDogMode true e).right.isDogMode = true) := by
  refine ⟨?_, ?_, ?_, by decide, ?_⟩
  · intro l₁ l₂
    rfl
  · intro loop f
    simp only [schedule]
    set n := beat % 16 with hn
    have hb : n < 16 := hn ▸ Nat.mod_lt _ (by norm_num)
    interval_cases n <;> simp
  · intro loop v
    simp only [schedule]
    set n := beat % 16 with hn
    have hb : n < 16 := hn ▸ Nat.mod_lt _ (by norm_num)
    interval_cases n <;> intro hv <;> simp at hv <;>
      first
      | exact ⟨45, hv⟩
      | exact ⟨55, hv⟩
      | exact ⟨35, hv⟩
  · intro e h
    simp [SynthEngine.setDogMode, LoopChannel.setPresence, h]

/-- Witness for C5: activating dog mode on the initial engine opens the left
presence gate, and step 10 of the override pattern carries the raised 55 Hz
voice. -/
theorem C5_witness :
    (SynthEngine.setDogMode true initialEngine).left.presenceGain = ⟨1, 1/10⟩ ∧
    Voice.dist808 55 ∈ LoopChannel.schedule true none 10 0 :=
  ⟨((C5_dog_override 0 0).2.2.2.2 initialEngine rfl).1,
   ((C5_dog_override 10 0).2.1 none 55).mpr (Or.inr (Or.inl ⟨rfl, by decide⟩))⟩

namespace LoopChannel

lemma applyEffect_mappings (ty : EffectType) (v : ℚ) (m : Bool) (s : ChannelState) :
    (applyEffect ty v m s).xEffect = s.xEffect ∧
    (applyEffect ty v m s).yEffect = s.yEffect ∧
    (applyEffect ty v m s).zEffect = s.zEffect ∧
    (applyEffect ty v m s).spreadEffect = s.spreadEffect := by
  cases ty <;> simp [applyEffect]

lemma applyRotFilter_mappings (rot : ℚ) (a f : Bool) (s : ChannelState) :
    (applyRotFilter rot a f s).xEffect = s.xEffect ∧
    (applyRotFilter rot a f s).yEffect = s.yEffect ∧
    (applyRotFilter rot a f s).zEffect = s.zEffect ∧
    (applyRotFilter rot a f s).spreadEffect = s.spreadEffect := by
  unfold applyRotFilter; split_ifs <;> exact ⟨rfl, rfl, rfl, rfl⟩

lemma applyEffect_filterNode (ty : EffectType) (v : ℚ) (m : Bool) (s : ChannelState) :
    (applyEffect ty v m s).filterNode =
      if ty = EffectType.LPF then
        ⟨FilterType.lowpass, ⟨100 + (max 0 (min 1 v)) ^ 2 * 19900, 1/10⟩, 1⟩
      else if ty = EffectType.HPF then
        ⟨FilterType.highpass, ⟨(max 0 (min 1 v)) * 10000, 1/10⟩, 1⟩
      else s.filterNode := by
  cases ty <;> simp [applyEffect]

lemma applyRotFilter_filterNode (rot : ℚ) (a f : Bool) (s : ChannelState) :
    (applyRotFilter rot a f s).filterNode = s.filterNode := by
  unfold applyRotFilter; split_ifs <;> rfl

lemma resetUnmappedEffects_mappings (s : ChannelState) :
    (resetUnmappedEffects s).xEffect = s.xEffect ∧
    (resetUnmappedEffects s).yEffect = s.yEffect ∧
    (resetUnmappedEffects s).zEffect = s.zEffect ∧
    (resetUnmappedEffects s).spreadEffect = s.spreadEffect := by
  simp only [resetUnmappedEffects]; split_ifs <;> exact ⟨rfl, rfl, rfl, rfl⟩

lemma resetUnmappedEffects_gainNode (s : ChannelState) :
    (resetUnmappedEffects s).gainNode =
      if EffectType.VOLUME ∈ [s.xEffect, s.yEffect, s.zEffect, s.spreadEffect]
      then s.gainNode else ⟨8/10, 1/2⟩ := by
  simp only [resetUnmappedEffects]; split_ifs <;> rfl

lemma resetUnmappedEffects_filterNode (s : ChannelState) :
    (resetUnmappedEffects s).filterNode =
      if EffectType.LPF ∈ [s.xEffect, s.yEffect, s.zEffect, s.spreadEffect] ∨
         EffectType.HPF ∈ [s.xEffect, s.yEffect, s.zEffect, s.spreadEffect]
      then s.filterNode
      else { s.filterNode with ftype := FilterType.lowpass, freq := ⟨20000, 1/2⟩ } := by
  simp only [resetUnmappedEffects]; split_ifs <;> rfl

lemma resetUnmappedEffects_reverbGain (s : ChannelState) :
    (resetUnmappedEffects s).reverbGain =
      if EffectType.REVERB ∈ [s.xEffect, s.yEffect, s.zEffect, s.spreadEffect]
      then s.reverbGain else ⟨0, 1/2⟩ := by
  simp only [resetUnmappedEffects]; split_ifs <;> rfl

lemma resetUnmappedEffects_delayFeedback (s : ChannelState) :
    (resetUnmappedEffects s).delayFeedback =
      if EffectType.DELAY ∈ [s.xEffect, s.yEffect, s.zEffect, s.spreadEffect]
      then s.delayFeedback else ⟨0, 1/2⟩ := by
  simp only [resetUnmappedEffects]; split_ifs <;> rfl

lemma resetUnmappedEffects_flangerWet (s : ChannelState) :
    (resetUnmappedEffects s).flangerWet =
      if EffectType.FLANGER ∈ [s.xEffect, s.yEffect, s.zEffect, s.spreadEffect]
      then s.flangerWet else ⟨0, 1/2⟩ := by
  simp only [resetUnmappedEffects]; split_ifs <;> rfl

end LoopChannel

namespace LoopChannel

/-- Helper: resetUnmappedEffects drives every effect type referenced by no
axis back to its default (the shared filter parameter when neither LPF nor
HPF is referenced). -/
lemma reset_defaults (s : ChannelState) :
    (EffectType.VOLUME ∉ [(resetUnmappedEffects s).xEffect,
        (resetUnmappedEffects s).yEffect, (resetUnmappedEffects s).zEffect,
        (resetUnmappedEffects s).spreadEffect] →
      (resetUnmappedEffects s).gainNode = ⟨8/10, 1/2⟩) ∧
    (EffectType.LPF ∉ [(resetUnmappedEffects s).xEffect,
        (resetUnmappedEffects s).yEffect, (resetUnmappedEffects s).zEffect,
        (resetUnmappedEffects s).spreadEffect] ∧
     EffectType.HPF ∉ [(resetUnmappedEffects s).xEffect,
        (resetUnmappedEffects s).yEffect, (resetUnmappedEffects s).zEffect,
        (resetUnmappedEffects s).spreadEffect] →
      (resetUnmappedEffects s).filterNode.ftype = FilterType.lowpass ∧
      (resetUnmappedEffects s).filterNode.freq = ⟨20000, 1/2⟩) ∧
    (EffectType.REVERB ∉ [(resetUnmappedEffects s).xEffect,
        (resetUnmappedEffects s).yEffect, (resetUnmappedEffects s).zEffect,
        (resetUnmappedEffects s).spreadEffect] →
      (resetUnmappedEffects s).reverbGain = ⟨0, 1/2⟩) ∧
    (EffectType.DELAY ∉ [(resetUnmappedEffects s).xEffect,
        (resetUnmappedEffects s).yEffect, (resetUnmappedEffects s).zEffect,
        (resetUnmappedEffects s).spreadEffect] →
      (resetUnmappedEffects s).delayFeedback = ⟨0, 1/2⟩) ∧
    (EffectType.FLANGER ∉ [(resetUnmappedEffects s).xEffect,
        (resetUnmappedEffects s).yEffect, (resetUnmappedEffects s).zEffect,
        (resetUnmappedEffects s).spreadEffect] →
      (resetUnmappedEffects s).flangerWet = ⟨0, 1/2⟩) := by
  have hm := resetUnmappedEffects_mappings s
  refine ⟨?_, ?_, ?_, ?_, ?_⟩
  · intro h
    rw [hm.1, hm.2.1, hm.2.2.1, hm.2.2.2] at h
    rw [resetUnmappedEffects_gainNode, if_neg h]
  · intro h
    rw [hm.1, hm.2.1, hm.2.2.1, hm.2.2.2] at h
    rw [resetUnmappedEffects_filterNode, if_neg (not_or.mpr h)]
    exact ⟨rfl, rfl⟩
  · intro h
    rw [hm.1, hm.2.1, hm.2.2.1, hm.2.2.2] at h
    rw [resetUnmappedEffects_reverbGain, if_neg h]
  · intro h
    rw [hm.1, hm.2.1, hm.2.2.1, hm.2.2.2] at h
    rw [resetUnmappedEffects_delayFeedback, if_neg h]
  · intro h
    rw [hm.1, hm.2.1, hm.2.2.1, hm.2.2.2] at h
    rw [resetUnmappedEffects_flangerWet, if_neg h]

end LoopChannel

namespace LoopChannel

/-- Counterexample to C6 as stated: starting from a fresh channel, map the
x axis to HPF, deliver one open-hand update with x = 0.5 (the mappable
filter becomes a high-pass with a 5000 Hz target), then call
setMapping(y, REVERB).  After this call no axis references LPF, yet the
mappable filter -- the parameter the claim assigns to the (unreferenced)
LPF effect type -- is not driven to the claimed low-pass 20000 Hz default:
it stays a high-pass at 5000 Hz, because the code resets the filter only
when NEITHER LPF NOR HPF is referenced and HPF is still mapped. -/
theorem C6_counterexample :
    ((setMapping Axis.y EffectType.REVERB c6state).xEffect ≠ EffectType.LPF ∧
     (setMapping Axis.y EffectType.REVERB c6state).yEffect ≠ EffectType.LPF ∧
     (setMapping Axis.y EffectType.REVERB c6state).zEffect ≠ EffectType.LPF ∧
     (setMapping Axis.y EffectType.REVERB c6state).spreadEffect ≠ EffectType.LPF) ∧
    (setMapping Axis.y EffectType.REVERB c6state).filterNode.ftype =
      FilterType.highpass ∧
    (setMapping Axis.y EffectType.REVERB c6state).filterNode.freq.target = 5000 ∧
    ¬ ((setMapping Axis.y EffectType.REVERB c6state).filterNode.ftype =
         FilterType.lowpass ∧
       (setMapping Axis.y EffectType.REVERB c6state).filterNode.freq.target =
         20000) := by
  have hfist : (decide ((1:ℚ) < 3/20)) = false := by
    rw [decide_eq_false_iff_not]; norm_num
  have e1 : setMapping Axis.x EffectType.HPF initialChannel = c6mid := rfl
  have c6x : c6state.xEffect = EffectType.HPF := by
    simp only [c6state]
    rw [e1]
    simp [update, hfist, applyRotFilter_mappings, applyEffect_mappings, c6mid,
      initialChannel]
  have c6z : c6state.zEffect = EffectType.NONE := by
    simp only [c6state]
    rw [e1]
    simp [update, hfist, applyRotFilter_mappings, applyEffect_mappings, c6mid,
      initialChannel]
  have c6s : c6state.spreadEffect = EffectType.NONE := by
    simp only [c6state]
    rw [e1]
    simp [update, hfist, applyRotFilter_mappings, applyEffect_mappings, c6mid,
      initialChannel]
  have c6f : c6state.filterNode = ⟨FilterType.highpass, ⟨5000, 1/10⟩, 1⟩ := by
    simp only [c6state]
    rw [e1]
    simp only [update, hfist, applyRotFilter_filterNode, applyEffect_filterNode]
    norm_num [c6mid, initialChannel]
    split_ifs <;> first | rfl | simp_all
  have e3 : setMapping Axis.y EffectType.REVERB c6state =
      resetUnmappedEffects { c6state with yEffect := EffectType.REVERB } := rfl
  have m3 := resetUnmappedEffects_mappings { c6state with yEffect := EffectType.REVERB }
  have tf : (setMapping Axis.y EffectType.REVERB c6state).filterNode =
      c6state.filterNode := by
    rw [e3, resetUnmappedEffects_filterNode, if_pos]
    right
    simp [c6x]
  refine ⟨⟨?_, ?_, ?_, ?_⟩, ?_, ?_, ?_⟩
  · rw [e3, m3.1]
    simp [c6x]
  · rw [e3, m3.2.1]
    simp
  · rw [e3, m3.2.2.1]
    simp [c6z]
  · rw [e3, m3.2.2.2]
    simp [c6s]
  · rw [tf, c6f]
  · rw [tf, c6f]
  · rw [tf, c6f]
    simp

end LoopChannel

namespace LoopChannel

/-- C6 amended: every setMapping call updates the axis assignment and then
drives the parameters of unreferenced effect types back to their defaults
with a 0.5 s time constant -- volume gain 0.8, reverb send 0, delay
feedback 0, flanger wet 0 -- and the shared mappable-filter parameter to
low-pass 20000 Hz when (and only in the sense that) neither LPF nor HPF is
referenced by any of the four axes. -/
theorem C6_reset_amended (eff : EffectType) (s : ChannelState) :
    ((setMapping Axis.x eff s).xEffect = eff ∧
     (setMapping Axis.y eff s).yEffect = eff ∧
     (setMapping Axis.z eff s).zEffect = eff ∧
     (setMapping Axis.spread eff s).spreadEffect = eff) ∧
    ∀ axis : Axis,
      (EffectType.VOLUME ∉ [(setMapping axis eff s).xEffect,
          (setMapping axis eff s).yEffect, (setMapping axis eff s).zEffect,
          (setMapping axis eff s).spreadEffect] →
        (setMapping axis eff s).gainNode = ⟨8/10, 1/2⟩) ∧
      (EffectType.LPF ∉ [(setMapping axis eff s).xEffect,
          (setMapping axis eff s).yEffect, (setMapping axis eff s).zEffect,
          (setMapping axis eff s).spreadEffect] ∧
       EffectType.HPF ∉ [(setMapping axis eff s).xEffect,
          (setMapping axis eff s).yEffect, (setMapping axis eff s).zEffect,
          (setMapping axis eff s).spreadEffect] →
        (setMapping axis eff s).filterNode.ftype = FilterType.lowpass ∧
        (setMapping axis eff s).filterNode.freq = ⟨20000, 1/2⟩) ∧
      (EffectType.REVERB ∉ [(setMapping axis eff s).xEffect,
          (setMapping axis eff s).yEffect, (setMapping axis eff s).zEffect,
          (setMapping axis eff s).spreadEffect] →
        (setMapping axis eff s).reverbGain = ⟨0, 1/2⟩) ∧
      (EffectType.DELAY ∉ [(setMapping axis eff s).xEffect,
          (setMapping axis eff s).yEffect, (setMapping axis eff s).zEffect,
          (setMapping axis eff s).spreadEffect] →
        (setMapping axis eff s).delayFeedback = ⟨0, 1/2⟩) ∧
      (EffectType.FLANGER ∉ [(setMapping axis eff s).xEffect,
          (setMapping axis eff s).yEffect, (setMapping axis eff s).zEffect,
          (setMapping axis eff s).spreadEffect] →
        (setMapping axis eff s).flangerWet = ⟨0, 1/2⟩) := by
  constructor
  · exact ⟨(resetUnmappedEffects_mappings _).1, (resetUnmappedEffects_mappings _).2.1,
      (resetUnmappedEffects_mappings _).2.2.1, (resetUnmappedEffects_mappings _).2.2.2⟩
  · intro axis
    cases axis <;> exact reset_defaults _

/-- Witness for C6 (amended): mapping x to NONE on a fresh channel leaves
no effect referenced, so the gain target returns to 0.8 and the filter
target to 20000 Hz, both with the 0.5 s reset time constant. -/
theorem C6_witness :
    (setMapping Axis.x EffectType.NONE initialChannel).gainNode = ⟨8/10, 1/2⟩ ∧
    (setMapping Axis.x EffectType.NONE initialChannel).filterNode.freq =
      ⟨20000, 1/2⟩ := by
  have h := (C6_reset_amended EffectType.NONE initialChannel).2 Axis.x
  exact ⟨h.1 (by decide), (h.2.1 (by decide)).2⟩

end LoopChannel

/-- C7: the gesture mapper computes x = clamp(indexFingertip.x, 0, 1) and
y = clamp(1 - indexFingertip.y, 0, 1) (bounded, identity resp.
inversion on in-range inputs); spread and z agree with the spec formulas
clamp(((mean fingertip-wrist distance / handScale) - 0.8)/(1.7 - 0.8), 0, 1)
and clamp((handScale - 0.05)/(0.3 - 0.05), 0, 1) with handScale the
wrist-to-middle-base distance; rotation equals
clamp(-(angleDeg + 90)/90, -1, 1) for the right hand and
clamp((angleDeg + 90)/90, -1, 1) for the left hand, where angleDeg is the
wrist-to-middle-base angle; at the pinky-down angles (0 deg right hand,
-180 deg left hand) rotation is -1 and at the thumb-down angles (-180 deg
right, 0 deg left) it is +1, for both hands. -/
theorem C7_gesture_mapping :
    (∀ lm : Fin 21 → Pt, 0 ≤ controlX lm ∧ controlX lm ≤ 1 ∧
      0 ≤ controlY lm ∧ controlY lm ≤ 1) ∧
    (∀ lm : Fin 21 → Pt, (lm 8).x ∈ Set.Icc (0:ℝ) 1 → controlX lm = (lm 8).x) ∧
    (∀ lm : Fin 21 → Pt, (lm 8).y ∈ Set.Icc (0:ℝ) 1 →
      controlY lm = 1 - (lm 8).y) ∧
    (∀ (lm : Fin 21 → Pt) (r : Bool),
      (calculateHandMetrics lm r).spread = specSpread lm) ∧
    (∀ (lm : Fin 21 → Pt) (r : Bool), (calculateHandMetrics lm r).z = specZ lm) ∧
    (∀ (lm : Fin 21 → Pt) (r : Bool),
      (calculateHandMetrics lm r).rotation =
        specRot r (atan2 ((lm 9).y - (lm 0).y) ((lm 9).x - (lm 0).x) *
          (180 / Real.pi))) ∧
    (specRot true 0 = -1 ∧ specRot true (-180) = 1 ∧
     specRot false (-180) = -1 ∧ specRot false 0 = 1) := by
  refine ⟨?_, ?_, ?_, ?_, ?_, ?_, ?_⟩
  · intro lm
    refine ⟨le_max_left 0 _, max_le (by norm_num) (min_le_left 1 _),
      le_max_left 0 _, max_le (by norm_num) (min_le_left 1 _)⟩
  · intro lm h
    simp only [controlX]
    rw [min_eq_right h.2, max_eq_right h.1]
  · intro lm h
    simp only [controlY]
    rw [min_eq_right (by linarith [h.1]), max_eq_right (by linarith [h.2])]
  · intro lm r
    simp only [calculateHandMetrics, specSpread, fingertipIdx, ptDist,
      List.map_cons, List.map_nil, List.sum_cons, List.sum_nil]
    congr 2
    ring
  · intro lm r
    simp only [calculateHandMetrics, specZ, ptDist]
  · intro lm r
    cases r <;> simp [calculateHandMetrics, specRot]
  · refine ⟨?_, ?_, ?_, ?_⟩ <;>
      norm_num [specRot, min_def, max_def]

/-- Witness for C7: with the index fingertip at (0.5, 1/3), the x control is
0.5 and the y control is the inverted 1 - 1/3. -/
theorem C7_witness :
    controlX (fun _ => (⟨1/2, 1/3⟩ : Pt)) = 1/2 ∧
    controlY (fun _ => (⟨1/2, 1/3⟩ : Pt)) = 1 - 1/3 :=
  ⟨C7_gesture_mapping.2.1 (fun _ => (⟨1/2, 1/3⟩ : Pt)) (by constructor <;> norm_num),
   C7_gesture_mapping.2.2.1 (fun _ => (⟨1/2, 1/3⟩ : Pt)) (by constructor <;> norm_num)⟩

/-- C8 (evaluating the code at the failing input): for the degenerate frame
whose 21 landmarks coincide, handScale is exactly 0, yet
calculateHandMetrics still performs the spread/z computation and returns a
metrics record (here 0/0 is the Lean convention for the JS NaN of
avgDist/handScale) instead of skipping the frame as the spec's epsilon
guard requires -- no such guard exists in the code. -/
theorem C8_no_guard :
    ptDist (degenerateHand 0) (degenerateHand 9) = 0 ∧
    calculateHandMetrics degenerateHand true = ⟨0, 0, -1⟩ := by
  have h0 : atan2 0 0 = 0 := by
    unfold atan2
    have h : (⟨0, 0⟩ : ℂ) = 0 := by apply Complex.ext <;> simp
    rw [h, Complex.arg_zero]
  constructor
  · norm_num [ptDist, degenerateHand]
  · norm_num [calculateHandMetrics, degenerateHand, fingertipIdx, ptDist, h0,
      HandMetrics.mk.injEq, min_def, max_def]

/-- C9: the tempo-setting path clamps the requested BPM into [40, 300]
(Math.max(40, Math.min(300, newBpm))) before it becomes the shared BPM of
both channels, the clamped value always lies in [40, 300], no
already-scheduled nextNoteTime (nor the step counter) is modified, and the
step duration used by the next clock advance is 60/(clampedBpm*4) going
forward. -/
theorem C9_tempo_clamp (b : ℚ) (e : EngineState) :
    (handleBpmChange b e).left.bpm = max 40 (min 300 b) ∧
    (handleBpmChange b e).right.bpm = max 40 (min 300 b) ∧
    (40 ≤ (handleBpmChange b e).left.bpm ∧ (handleBpmChange b e).left.bpm ≤ 300) ∧
    (handleBpmChange b e).left.nextNoteTime = e.left.nextNoteTime ∧
    (handleBpmChange b e).right.nextNoteTime = e.right.nextNoteTime ∧
    (handleBpmChange b e).left.currentStep = e.left.currentStep ∧
    (handleBpmChange b e).right.currentStep = e.right.currentStep ∧
    (LoopChannel.nextNote (handleBpmChange b e).left).nextNoteTime =
      e.left.nextNoteTime + 60 / (max 40 (min 300 b) * 4) ∧
    (LoopChannel.nextNote (handleBpmChange b e).right).nextNoteTime =
      e.right.nextNoteTime + 60 / (max 40 (min 300 b) * 4) := by
  refine ⟨rfl, rfl, ⟨le_max_left _ _, max_le (by norm_num) (min_le_left _ _)⟩,
    rfl, rfl, rfl, rfl, ?_, ?_⟩ <;>
  · rw [LoopChannel.nextNote_eq]
    rfl

namespace LoopChannel

/-- Helper: a scheduler wake is insensitive to the active loop except for
the voices it dispatches -- the final state is the same up to the
currentLoop field, and each dispatched event keeps its step and time. -/
lemma schedulerWake_setLoopField (now : ℚ) (rand : ℕ → ℚ) :
    ∀ (fuel : ℕ) (s : ChannelState) (l : Option LoopDefinition),
      (schedulerWake fuel now rand { s with currentLoop := l }).1 =
        { (schedulerWake fuel now rand s).1 with currentLoop := l } ∧
      (schedulerWake fuel now rand { s with currentLoop := l }).2 =
        (schedulerWake fuel now rand s).2.map
          (fun ev =>
            { ev with voices := schedule s.isDogMode l ev.step (rand ev.step) }) := by
  intro fuel
  induction fuel with
  | zero => intro s l; exact ⟨rfl, rfl⟩
  | succ n ih =>
    intro s l
    simp only [schedulerWake]
    by_cases h : s.nextNoteTime < now + 1/10
    · rw [if_pos h]
      rw [if_pos h]
      rw [List.map_cons]
      exact ⟨(ih (nextNote s) l).1,
        congrArg₂ List.cons rfl ((ih (nextNote s) l).2)⟩
    · rw [if_neg h]
      rw [if_neg h]
      exact ⟨rfl, rfl⟩

/-- C10: setLoop with null or with an id absent from the catalog sets the
active loop to none and changes nothing else (isPlaying, the pending wake,
the clock, every effect parameter and mapping are untouched, as the
record-update equality shows); outside override mode subsequent dispatch is
empty (silence), while scheduler wakes keep advancing exactly as before --
same final state up to currentLoop, same dispatched steps and times, all
with empty voice lists.  The embedded setLoop is a total function, so the
call never raises. -/
theorem C10_setLoop_invalid (now : ℚ) (lid : Option String) (s : ChannelState)
    (hbad : lid = none ∨ ∀ l ∈ AVAILABLE_LOOPS, some l.id ≠ lid) :
    setLoop now lid s = { s with currentLoop := none } ∧
    (s.isDogMode = false → ∀ (beat : ℕ) (rand : ℚ),
      schedule s.isDogMode (setLoop now lid s).currentLoop beat rand = []) ∧
    (∀ (fuel : ℕ) (rand : ℕ → ℚ),
      (schedulerWake fuel now rand (setLoop now lid s)).1 =
        { (schedulerWake fuel now rand s).1 with currentLoop := none } ∧
      ((schedulerWake fuel now rand (setLoop now lid s)).2.map
          (fun ev => (ev.step, ev.time)) =
        (schedulerWake fuel now rand s).2.map (fun ev => (ev.step, ev.time))) ∧
      (s.isDogMode = false →
        ∀ ev ∈ (schedulerWake fuel now rand (setLoop now lid s)).2,
          ev.voices = [])) := by
  have h1 : setLoop now lid s = { s with currentLoop := none } := by
    cases lid with
    | none => rfl
    | some lid' =>
      rcases hbad with hno | hbad
      · exact absurd hno (by simp)
      · have hfind : AVAILABLE_LOOPS.find? (fun l => l.id == lid') = none := by
          rw [List.find?_eq_none]
          intro l hl
          have h2 := hbad l hl
          simpa using h2
        simp [setLoop, hfind]
  refine ⟨h1, ?_, ?_⟩
  · intro hdog beat rand
    rw [h1, hdog]
    rfl
  · intro fuel rand
    rw [h1]
    refine ⟨(schedulerWake_setLoopField now rand fuel s none).1, ?_, ?_⟩
    · rw [(schedulerWake_setLoopField now rand fuel s none).2, List.map_map]
      rfl
    · intro hdog ev hev
      rw [(schedulerWake_setLoopField now rand fuel s none).2] at hev
      obtain ⟨ev0, _, rfl⟩ := List.mem_map.mp hev
      show schedule s.isDogMode none ev0.step (rand ev0.step) = []
      rw [hdog]
      rfl

/-- Witness for C10: an unknown loop id on a fresh channel just clears the
active loop. -/
theorem C10_witness :
    setLoop 0 (some "bogus_loop") initialChannel =
      { initialChannel with currentLoop := none } :=
  (C10_setLoop_invalid 0 (some "bogus_loop") initialChannel
    (Or.inr (by decide))).1

end LoopChannel
